import Mathlib

/-!
Shallow embedding of the UWS-server node agent (service registry,
port allocator, reconciliation engine, terminal bridge) and proofs
about its behaviour.

The registry (`service_registry.py`) stores Python dicts keyed by
`service_id`; we model the dict as an association list with unique keys
and Python-dict update semantics (replacing the value of an existing key
keeps its position, a new key is appended).  Optional / falsy Python
values are modelled with `Option`, and Python truthiness of strings
(`if container_id:`) with `truthyStr`.  The Docker daemon consulted by
`service_registry.py`, `container_operations.py` and
`container_recovery.py` is modelled as a `Runtime` value: a list of
containers plus the outcome the daemon produces for a `start` request.
-/

namespace UWS

/-- Python truthiness for an optional string: `None` and `""` are falsy;
a truthy value is returned for use. -/
def truthyStr : Option String → Option String
  | some s => if s = "" then none else some s
  | none => none

/-- Python truthiness for an optional integer port: `None` and `0` are falsy. -/
def truthyNat : Option Nat → Bool
  | some n => n ≠ 0
  | none => false

/-- Python `a or b` for an optional string `a`: yields `b` when `a` is
`None` or empty. -/
def strOrElse : Option String → String → String
  | some s, d => if s = "" then d else s
  | none, d => d

/-- One value of the registry dict `self.services[service_id]`, with the
fields written by `ServiceRegistry.register_service`. -/
structure ServiceEntry where
  template : String
  container_name : String
  container_id : Option String
  port : Option Nat
  instance_id : Option Int
  project_dir : Option String
  created_at : String
  status : String
deriving Repr, DecidableEq

/-- The registry dict `self.services`, as an association list. -/
abbrev Registry := List (String × ServiceEntry)

/-- Python dict lookup `d.get(k)`. -/
def dictGet (reg : Registry) (k : String) : Option ServiceEntry :=
  (reg.find? (fun p => p.1 = k)).map (·.2)

/-- Replacing the value stored under an existing key `k` by `f` of the old
value, keeping the key in place (Python mutates the dict slot). -/
def mapEntry (reg : Registry) (k : String) (f : ServiceEntry → ServiceEntry) : Registry :=
  reg.map (fun p => if p.1 = k then (p.1, f p.2) else p)

/-- Python dict assignment `d[k] = v`: replaces in place when the key is
present, otherwise appends. -/
def dictSet (reg : Registry) (k : String) (v : ServiceEntry) : Registry :=
  if reg.any (fun p => p.1 = k) then mapEntry reg k (fun _ => v)
  else reg ++ [(k, v)]

/-- Python `del d[k]` guarded by `if k in d` (as in `unregister_service`). -/
def dictDel (reg : Registry) (k : String) : Registry :=
  reg.filter (fun p => p.1 ≠ k)

/-- A Docker container as seen through the docker-py handles the code
uses: `id`, `name`, `status`, and the published port bindings
(`container.ports`, mapping a container port spec to the bound host
ports). -/
structure Container where
  id : String
  name : String
  status : String
  image_tags : List String
  ports : List (String × List Nat)
deriving Repr, DecidableEq

/-- The Docker daemon: the containers it knows, plus the outcome of a
`container.start()` call (`.error msg` for a raised `DockerException`,
`.ok st` for success with `st` the status observed after the following
`reload()`). -/
structure Runtime where
  containers : List Container
  startOutcome : String → Except String String

/-- Models `client.containers.get(ref)`: resolves a container by id or name,
`none` standing for a raised `docker.errors.NotFound`. -/
def Runtime.get (rt : Runtime) (ref : String) : Option Container :=
  rt.containers.find? (fun c => c.id = ref || c.name = ref)

/-- Models `ServiceRegistry.register_service`: stores a fresh entry dict under
`service_id` (overwriting any existing entry), with `created_at` defaulted
to the current time and `status` hard-coded to `"running"`; `now` stands
for `datetime.now().isoformat()`. -/
def register_service (reg : Registry) (service_id template container_name : String)
    (port : Option Nat) (instance_id : Option Int) (project_dir : Option String)
    (container_id : Option String) (created_at : Option String) (now : String) : Registry :=
  dictSet reg service_id
    { template := template
      container_name := container_name
      container_id := container_id
      port := port
      instance_id := instance_id
      project_dir := project_dir
      created_at := strOrElse created_at now
      status := "running" }

/-- Models `ServiceRegistry.unregister_service`: removes the entry if present. -/
def unregister_service (reg : Registry) (service_id : String) : Registry :=
  dictDel reg service_id

/-- The `**kwargs` actually passed to `update_service` anywhere in the
code base: a subset of `status` and `container_id`. -/
structure ServiceUpdate where
  status : Option String
  container_id : Option String
deriving Repr, DecidableEq

/-- Applying `entry.update(kwargs)` for the fields of `ServiceUpdate`. -/
def applyUpdate (e : ServiceEntry) (u : ServiceUpdate) : ServiceEntry :=
  { e with
    status := match u.status with | some s => s | none => e.status
    container_id := match u.container_id with | some c => some c | none => e.container_id }

/-- Models `ServiceRegistry.update_service`: merges the given fields into the
entry when present (returning `true`), otherwise leaves the registry
unchanged and returns `false`. -/
def update_service (reg : Registry) (service_id : String) (u : ServiceUpdate) :
    Registry × Bool :=
  if reg.any (fun p => p.1 = service_id) then
    (mapEntry reg service_id (fun e => applyUpdate e u), true)
  else (reg, false)

/-- Models `ServiceRegistry.list_services`: all entries, or those whose
`template` field equals the (truthy) filter. -/
def list_services (reg : Registry) (template : Option String) : Registry :=
  match truthyStr template with
  | some t => reg.filter (fun p => p.2.template = t)
  | none => reg

/-- Models `ServiceRegistry.get_used_ports`: the ports of all entries with a
truthy `port` field. -/
def get_used_ports (reg : Registry) : List Nat :=
  (reg.filter (fun p => truthyNat p.2.port)).map (fun p => p.2.port.getD 0)

/-- One step of the loop inside `get_next_instance_id`: take the maximum
with an integer `instance_id`, skip a non-integer one. -/
def instStep (m : Int) (p : String × ServiceEntry) : Int :=
  match p.2.instance_id with
  | some i => max m i
  | none => m

/-- The loop inside `get_next_instance_id`: the maximum of the integer
`instance_id` fields and `0` (non-integer values are skipped). -/
def maxInstance (l : Registry) : Int :=
  l.foldl instStep 0

/-- Models `ServiceRegistry.get_next_instance_id`: `1` when the template has no
entries, otherwise one more than the maximal current `instance_id`. -/
def get_next_instance_id (reg : Registry) (template : String) : Int :=
  let template_services := list_services reg (some template)
  if template_services.isEmpty then 1
  else maxInstance template_services + 1

/-- The body of the first loop of `cleanup_dead_services`, applied to one
registry item: a truthy `container_id` is looked up in the runtime; if
found, the entry status is refreshed via `update_service`, if not found
the id is appended to the `dead_services` list. -/
def cleanupStep (rt : Runtime) (acc : Registry × List String)
    (p : String × ServiceEntry) : Registry × List String :=
  match truthyStr p.2.container_id with
  | some cid =>
    match rt.get cid with
    | some c => ((update_service acc.1 p.1 ⟨some c.status, none⟩).1, acc.2)
    | none => (acc.1, acc.2 ++ [p.1])
  | none => acc

/-- Models `ServiceRegistry.cleanup_dead_services`: iterates the registry items,
refreshing the status of entries whose container is found and collecting
the ids whose container is gone, then unregisters the collected ids.  The
Python function has no `return` statement on this path, so its value is
`None`, modelled as the second component `none`. -/
def cleanup_dead_services (rt : Runtime) (reg : Registry) :
    Registry × Option (List String) :=
  let res := reg.foldl (cleanupStep rt) (reg, [])
  (res.2.foldl (fun r sid => unregister_service r sid) res.1, none)

/-- Performing `n` successive invocations of `cleanup_dead_services` against the
same runtime. -/
def reapIter (rt : Runtime) : Nat → Registry → Registry
  | 0, reg => reg
  | n + 1, reg => reapIter rt n (cleanup_dead_services rt reg).1

/-! Concrete fixtures used to exercise the registry operations. -/

/-- A registered service backed by container id `c-a`. -/
def entA : ServiceEntry :=
  { template := "buckets", container_name := "buckets_instance_1"
    container_id := some "c-a", port := some 8010, instance_id := some 1
    project_dir := none, created_at := "t0", status := "running" }

/-- A registered service backed by container id `c-b`. -/
def entB : ServiceEntry :=
  { template := "buckets", container_name := "buckets_instance_2"
    container_id := some "c-b", port := some 8011, instance_id := some 2
    project_dir := none, created_at := "t1", status := "running" }

/-- A registered service with no container id recorded. -/
def entC : ServiceEntry :=
  { template := "webapp", container_name := "webapp_instance_1"
    container_id := none, port := some 9000, instance_id := some 1
    project_dir := some "/srv/webapp", created_at := "t2", status := "running" }

/-- A runtime with no containers at all. -/
def rtEmpty : Runtime := ⟨[], fun _ => Except.error "docker unavailable"⟩

/-- A runtime in which only container `c-b` exists, in state `exited`. -/
def rtOnlyB : Runtime :=
  ⟨[⟨"c-b", "buckets_instance_2", "exited", [], []⟩], fun _ => Except.error "unused"⟩

/-- Registry holding instances 1 and 2 of template `buckets`. -/
def regTwoBuckets : Registry :=
  register_service
    (register_service [] "buckets_instance_1" "buckets" "buckets_instance_1"
      (some 8010) (some 1) none (some "c-a") none "t0")
    "buckets_instance_2" "buckets" "buckets_instance_2"
    (some 8011) (some 2) none (some "c-b") none "t1"

/-- Registry holding `svc` registered once. -/
def regOne : Registry :=
  register_service [] "svc" "tmplA" "contA" (some 8000) (some 1) none none none "t0"


/-! ### Port allocator (`container_operations.py`) -/

/-- The host ports observed on the published port bindings of the live
containers (`client.containers.list()` lists running containers only). -/
def livePortBindings (rt : Runtime) : List Nat :=
  (rt.containers.filter (fun c => c.status = "running")).flatMap
    (fun c => c.ports.flatMap (fun pi => pi.2))

/-- The `used_ports` set built at the top of `get_free_port`: the
registry's used ports after the initial `cleanup_dead_services()` pass,
unioned with the live containers' bound host ports. -/
def usedPortsAll (rt : Runtime) (reg : Registry) : List Nat :=
  get_used_ports (cleanup_dead_services rt reg).1 ++ livePortBindings rt

/-- The scan loop of `get_free_port`: starting at `port`, advance while
the candidate is in `used` or fails the bind probe `avail`
(`_is_port_available`, a host-OS effect taken as a parameter); once the
candidate exceeds 65535 return the OS-assigned ephemeral port `eph`
(the bind-to-0 fallback, also a host-OS effect). -/
def scanPort (used : List Nat) (avail : Nat → Bool) (eph : Nat) (port : Nat) : Nat :=
  if port ∈ used ∨ avail port = false then
    if port + 1 > 65535 then eph
    else scanPort used avail eph (port + 1)
  else port
termination_by 65536 - port
decreasing_by omega

/-- Models `get_free_port`: reap dead services, build the used-port set from the
registry and the live container bindings, then scan from `start_port`. -/
def get_free_port (rt : Runtime) (reg : Registry) (avail : Nat → Bool)
    (eph : Nat) (start_port : Nat) : Nat :=
  scanPort (usedPortsAll rt reg) avail eph start_port

/-- A port the scan accepts: not excluded and passing the bind probe. -/
abbrev goodPort (used : List Nat) (avail : Nat → Bool) (p : Nat) : Prop :=
  p ∉ used ∧ avail p = true

/-! ### Reconciliation engine (`container_recovery.py`) -/

/-- Setting the recorded status of the container with id `cid`. -/
def setContainerStatus (cs : List Container) (cid st : String) : List Container :=
  cs.map (fun c => if c.id = cid then { c with status := st } else c)

/-- Models `container.start()` followed by `container.reload()`:
`.error msg` for a raised exception, otherwise the runtime with the
container's status set to the freshly observed status, plus that status. -/
def Runtime.startContainer (rt : Runtime) (cid : String) :
    Except String (Runtime × String) :=
  match rt.startOutcome cid with
  | Except.error e => Except.error e
  | Except.ok st =>
    Except.ok ({ rt with containers := setContainerStatus rt.containers cid st }, st)

/-- Models `container.stop()`: the container becomes `exited`. -/
def Runtime.stopContainer (rt : Runtime) (cid : String) : Runtime :=
  { rt with containers := setContainerStatus rt.containers cid "exited" }

/-- Models `container.remove(force=True)`: the container disappears. -/
def Runtime.removeContainer (rt : Runtime) (cid : String) : Runtime :=
  { rt with containers := rt.containers.filter (fun c => c.id ≠ cid) }

/-- The per-entry outcome recorded in `recovery_results` by
`startup_container_recovery`. -/
inductive RecoveryResult where
  | already_running
  | restarted (new_status : String)
  | failed (reason : String)
deriving Repr, DecidableEq

/-- The body of the recovery loop of `startup_container_recovery` for one
registry item: resolve the container by id then by name (backfilling
`container_id` when found by name), unregister when unresolvable, start
it when exited/stopped (recording the observed post-start status), and
record per-entry failures — a raised start error is caught and stored as
`error_<msg>` without touching the registry entry. -/
def recoverOne (rt : Runtime) (reg : Registry) (sid : String) (svc : ServiceEntry) :
    Runtime × Registry × RecoveryResult :=
  match truthyStr svc.container_id, truthyStr (some svc.container_name) with
  | none, none => (rt, reg, RecoveryResult.failed "no_container_info")
  | cid?, name? =>
    let byId : Option Container :=
      match cid? with
      | some cid => rt.get cid
      | none => none
    let found : Option Container × Registry :=
      match byId with
      | some c => (some c, reg)
      | none =>
        match name? with
        | some nm =>
          match rt.get nm with
          | some c => (some c, (update_service reg sid ⟨none, some c.id⟩).1)
          | none => (none, reg)
        | none => (none, reg)
    match found with
    | (none, reg1) =>
      (rt, unregister_service reg1 sid, RecoveryResult.failed "container_not_found")
    | (some c, reg1) =>
      if c.status = "running" then
        (rt, (update_service reg1 sid ⟨some "running", none⟩).1,
         RecoveryResult.already_running)
      else if c.status = "exited" ∨ c.status = "stopped" then
        match rt.startContainer c.id with
        | Except.ok rtst =>
          (rtst.1, (update_service reg1 sid ⟨some rtst.2, none⟩).1,
           RecoveryResult.restarted rtst.2)
        | Except.error e => (rt, reg1, RecoveryResult.failed ("error_" ++ e))
      else
        (rt, (update_service reg1 sid ⟨some c.status, none⟩).1,
         RecoveryResult.failed ("unexpected_state_" ++ c.status))

/-- Models `startup_container_recovery`: reap dead services, then run the
recovery loop over the snapshot of registered services, threading the
registry and runtime and accumulating the per-entry result map and the
recovered/failed counters. -/
def startup_container_recovery (rt : Runtime) (reg : Registry) :
    Runtime × Registry × List (String × RecoveryResult) × Nat × Nat :=
  let reg0 := (cleanup_dead_services rt reg).1
  reg0.foldl
    (fun acc item =>
      let out := recoverOne acc.1 acc.2.1 item.1 item.2
      match out.2.2 with
      | RecoveryResult.failed _ =>
        (out.1, out.2.1, acc.2.2.1 ++ [(item.1, out.2.2)], acc.2.2.2.1,
         acc.2.2.2.2 + 1)
      | _ =>
        (out.1, out.2.1, acc.2.2.1 ++ [(item.1, out.2.2)], acc.2.2.2.1 + 1,
         acc.2.2.2.2))
    (rt, reg0, [], 0, 0)

/-! ### Shutdown teardown (`graceful_shutdown`) -/

/-- A container-affecting request issued during shutdown. -/
inductive TeardownAction where
  | stop (name : String) (timeout : Nat)
  | remove (name : String)
deriving Repr, DecidableEq

/-- The whole state `graceful_shutdown` can read or mutate: the
function-attribute guard flag `graceful_shutdown._called`, the registry,
and the container runtime. -/
structure ShutdownCtx where
  called : Bool
  registry : Registry
  runtime : Runtime

/-- The per-service cleanup body of `graceful_shutdown`: resolve the
container by id, else by name; stop it if running (10s grace) and
force-remove it; unregister the service unconditionally. -/
def shutdownService (st : Runtime × Registry × List TeardownAction)
    (item : String × ServiceEntry) : Runtime × Registry × List TeardownAction :=
  match truthyStr item.2.container_id, truthyStr (some item.2.container_name) with
  | none, none => (st.1, unregister_service st.2.1 item.1, st.2.2)
  | cid?, _ =>
    let cref := match cid? with | some cid => cid | none => item.2.container_name
    match st.1.get cref with
    | none => (st.1, unregister_service st.2.1 item.1, st.2.2)
    | some c =>
      if c.status = "running" then
        ((st.1.stopContainer c.id).removeContainer c.id,
         unregister_service st.2.1 item.1,
         st.2.2 ++ [TeardownAction.stop c.name 10, TeardownAction.remove c.name])
      else
        (st.1.removeContainer c.id, unregister_service st.2.1 item.1,
         st.2.2 ++ [TeardownAction.remove c.name])

/-- The container-name substrings `cleanup_orphaned_containers` treats as
managed by the system. -/
def naming_patterns : List String :=
  ["_instance_", "_cont", "bucket_cont", "db_cont", "auth_service_cont",
   "file_manager_cont", "database_service_cont"]

/-- Python `any(pattern in container_name for pattern in naming_patterns)`. -/
def isManagedName (name : String) : Bool :=
  naming_patterns.any (fun pat => decide (List.IsInfix pat.toList name.toList))

/-- Models `cleanup_orphaned_containers`: stop (5s grace) and remove every
container whose name matches a managed-naming pattern. -/
def cleanup_orphaned_containers (rt : Runtime) : Runtime × List TeardownAction :=
  (rt.containers.filter (fun c => isManagedName c.name)).foldl
    (fun acc c =>
      if c.status = "running" then
        ((acc.1.stopContainer c.id).removeContainer c.id,
         acc.2 ++ [TeardownAction.stop c.name 5, TeardownAction.remove c.name])
      else
        (acc.1.removeContainer c.id, acc.2 ++ [TeardownAction.remove c.name]))
    (rt, [])

/-- Models `graceful_shutdown`: guarded by the `_called` function attribute —
a repeat call returns immediately, mutating nothing and issuing no
container request; the first call tears down every registered service and
then sweeps orphaned containers. -/
def graceful_shutdown (s : ShutdownCtx) : ShutdownCtx × List TeardownAction :=
  if s.called then (s, [])
  else
    let res := s.registry.foldl shutdownService (s.runtime, s.registry, [])
    let orph := cleanup_orphaned_containers res.1
    ({ called := true, registry := res.2.1, runtime := orph.1 }, res.2.2 ++ orph.2)

/-! ### Terminal bridge setup (`terminal_ws.py`) -/

/-- An observable effect on the client channel. -/
inductive WsAction where
  | send (msg : String)
  | close
deriving Repr, DecidableEq

/-- What `handle_terminal` consumes besides the path: the runtime, and
the exec-session API (`exec_create` / `exec_start`), each of which may
raise (`.error`). -/
structure TerminalApi where
  runtime : Runtime
  execCreate : String → Except String String
  execStart : String → Except String Unit

/-- Splitting a character list on `/`, like Python `str.split("/")`. -/
def splitOnSlash : List Char → List (List Char)
  | [] => [[]]
  | c :: cs =>
    let rest := splitOnSlash cs
    if c = Char.ofNat 47 then [] :: rest
    else
      match rest with
      | [] => [[c]]
      | r :: rs => (c :: r) :: rs

/-- Models `_, _, container_id = path.rsplit("/", 2)`: the final path segment,
provided the path holds at least two slashes (otherwise the unpacking
raises `ValueError`, caught by the blanket handler). -/
def rsplitContainerId (path : String) : Option String :=
  let parts := splitOnSlash path.toList
  if 3 ≤ parts.length then (parts.getLast?).map String.mk else none

/-- The setup phase of `handle_terminal`, up to the point where the two
relay loops are spawned: the list of client-channel actions performed,
and the exec-session id on success.  Every failure other than the
container-not-running check is caught by the blanket handler at the
bottom of the function, which only closes the socket. -/
def handle_terminal_setup (api : TerminalApi) (path : String) :
    List WsAction × Option String :=
  match rsplitContainerId path with
  | none => ([WsAction.close], none)
  | some container_id =>
    match api.runtime.get container_id with
    | none => ([WsAction.close], none)
    | some c =>
      if c.status ≠ "running" then
        ([WsAction.send ("ERROR: Cannot connect to terminal: Container '"
            ++ c.name ++ "' is " ++ c.status ++ ", not running
"),
          WsAction.send "Available options:
",
          WsAction.send "1. Start the container first using: docker start <container_id>
",
          WsAction.send "2. Launch a new container using the /launch endpoint
",
          WsAction.close], none)
      else
        match api.execCreate c.id with
        | Except.error _ => ([WsAction.close], none)
        | Except.ok execId =>
          match api.execStart execId with
          | Except.error _ => ([WsAction.close], none)
          | Except.ok _ =>
            ([WsAction.send "=== Docker Terminal Session Started ===
",
              WsAction.send ("Container: " ++ c.name ++ " (" ++ c.id.take 12 ++ ")
"),
              WsAction.send ("Status: " ++ c.status ++ "
"),
              WsAction.send ("Image: " ++
                (match c.image_tags with | [] => "unknown" | t :: _ => t) ++ "
"),
              WsAction.send "========================================
"], some execId)

/-! ### The two relay loops of `handle_terminal` -/

/-- The state of the two relay coroutines spawned by `asyncio.gather`:
the pending chunks the exec socket will yield (exhaustion = zero-byte
read), the pending client messages (exhaustion = the receive raising),
each loop's terminated flag, and the data forwarded so far in each
direction. -/
structure RelayState where
  fromContainer : List String
  fromClient : List String
  aDone : Bool
  bDone : Bool
  toClient : List String
  toContainer : List String
deriving Repr, DecidableEq

/-- One scheduling step of the gathered pair of relay loops.
`container_to_ws` (loop A) forwards a chunk or terminates on a zero-byte
read; `ws_to_container` (loop B) forwards a client message or terminates
when the receive raises.  `asyncio.gather` without cancellation lets any
non-terminated loop step, regardless of the other loop's state; the
gathered future completes only when both loops have terminated. -/
inductive RelayStep : RelayState → RelayState → Prop where
  | containerData (s : RelayState) (d : String) (rest : List String) :
      s.aDone = false → s.fromContainer = d :: rest →
      RelayStep s { s with fromContainer := rest, toClient := s.toClient ++ [d] }
  | containerClosed (s : RelayState) :
      s.aDone = false → s.fromContainer = [] →
      RelayStep s { s with aDone := true }
  | clientData (s : RelayState) (d : String) (rest : List String) :
      s.bDone = false → s.fromClient = d :: rest →
      RelayStep s { s with fromClient := rest, toContainer := s.toContainer ++ [d] }
  | clientClosed (s : RelayState) :
      s.bDone = false → s.fromClient = [] →
      RelayStep s { s with bDone := true }

/-- Reachability under relay scheduling steps. -/
def RelayReachable (s s' : RelayState) : Prop := Relation.ReflTransGen RelayStep s s'

/-! Concrete fixtures for the recovery, terminal and relay claims. -/

/-- A registered service backed by container id `c-d`. -/
def entD : ServiceEntry :=
  { template := "db", container_name := "db_instance_1"
    container_id := some "c-d", port := some 8020, instance_id := some 1
    project_dir := none, created_at := "t3", status := "running" }

/-- A registered service backed by container id `c-e`. -/
def entE : ServiceEntry :=
  { template := "web", container_name := "web_instance_1"
    container_id := some "c-e", port := some 8030, instance_id := some 1
    project_dir := none, created_at := "t4", status := "running" }

/-- A runtime whose only container `c-d` is exited and whose daemon
raises `boom` on any start request. -/
def rtExitedFail : Runtime :=
  ⟨[⟨"c-d", "db_instance_1", "exited", [], []⟩], fun _ => Except.error "boom"⟩

/-- A runtime whose only container `c-e` is exited and starts cleanly
into the `running` state. -/
def rtExitedOk : Runtime :=
  ⟨[⟨"c-e", "web_instance_1", "exited", [], []⟩],
   fun cid => if cid = "c-e" then Except.ok "running" else Except.error "no such"⟩

/-- A terminal API over an empty runtime. -/
def apiNoContainers : TerminalApi :=
  ⟨rtEmpty, fun _ => Except.error "no exec", fun _ => Except.ok ()⟩

/-- A terminal API over the runtime holding only the exited `c-b`. -/
def apiExited : TerminalApi :=
  ⟨rtOnlyB, fun _ => Except.ok "e1", fun _ => Except.ok ()⟩

/-- Relay state: exec stream already exhausted, one pending client
message. -/
def relayInit : RelayState := ⟨[], ["ls
"], false, false, [], []⟩

/-- Relay state after loop A observes the zero-byte read and terminates:
loop A done, loop B still running with pending input. -/
def relayHalf : RelayState := ⟨[], ["ls
"], true, false, [], []⟩

/-- Relay state after loop B forwards its message even though loop A has
already terminated. -/
def relayAfter : RelayState := ⟨[], [], true, false, [], ["ls
"]⟩

/-! ### Dictionary lemmas -/

theorem dictGet_eq_none_of_not_any (reg : Registry) (k : String)
    (h : ¬ reg.any (fun p => p.1 = k) = true) : dictGet reg k = none := by
  unfold dictGet
  rw [List.find?_eq_none.2]
  · rfl
  · intro p hp hpk
    exact h (List.any_eq_true.2 ⟨p, hp, hpk⟩)

theorem dictGet_mapEntry_self (reg : Registry) (k : String)
    (f : ServiceEntry → ServiceEntry) :
    dictGet (mapEntry reg k f) k = (dictGet reg k).map f := by
  unfold dictGet mapEntry
  induction reg with
  | nil => rfl
  | cons hd tl ih =>
    by_cases hk : hd.1 = k
    · simp [List.find?_cons, hk]
    · simp only [List.map_cons, if_neg hk]
      rw [List.find?_cons_of_neg _ (by simpa using hk),
        List.find?_cons_of_neg _ (by simpa using hk)]
      exact ih

theorem dictGet_mapEntry_ne (reg : Registry) (k k' : String)
    (f : ServiceEntry → ServiceEntry) (h : k' ≠ k) :
    dictGet (mapEntry reg k f) k' = dictGet reg k' := by
  unfold dictGet mapEntry
  induction reg with
  | nil => rfl
  | cons hd tl ih =>
    by_cases hk' : hd.1 = k'
    · have hk : ¬ hd.1 = k := fun hh => h (hk' ▸ hh)
      simp only [List.map_cons, if_neg hk]
      rw [List.find?_cons_of_pos _ (by simpa using hk'),
        List.find?_cons_of_pos _ (by simpa using hk')]
    · by_cases hk : hd.1 = k
      · simp only [List.map_cons, if_pos hk]
        rw [List.find?_cons_of_neg _ (by simpa using hk'),
          List.find?_cons_of_neg _ (by simpa using hk')]
        exact ih
      · simp only [List.map_cons, if_neg hk]
        rw [List.find?_cons_of_neg _ (by simpa using hk'),
          List.find?_cons_of_neg _ (by simpa using hk')]
        exact ih

theorem keys_mapEntry (reg : Registry) (k : String) (f : ServiceEntry → ServiceEntry) :
    (mapEntry reg k f).map Prod.fst = reg.map Prod.fst := by
  unfold mapEntry
  induction reg with
  | nil => rfl
  | cons hd tl ih =>
    simp only [List.map_cons]
    by_cases hk : hd.1 = k
    · rw [if_pos hk]
      simpa using ih
    · rw [if_neg hk]
      simpa using ih

theorem dictGet_isSome_of_any (reg : Registry) (k : String)
    (h : reg.any (fun p => p.1 = k) = true) : ∃ e, dictGet reg k = some e := by
  unfold dictGet
  rcases List.any_eq_true.1 h with ⟨p, hp, hpk⟩
  have hs : (List.find? (fun p => p.1 = k) reg).isSome := List.find?_isSome.2 ⟨p, hp, hpk⟩
  rcases Option.isSome_iff_exists.1 hs with ⟨q, hq⟩
  exact ⟨q.2, by rw [hq]; rfl⟩

theorem dictGet_dictSet_self (reg : Registry) (k : String) (v : ServiceEntry) :
    dictGet (dictSet reg k v) k = some v := by
  unfold dictSet
  by_cases h : reg.any (fun p => p.1 = k)
  · rcases dictGet_isSome_of_any reg k h with ⟨e, he⟩
    rw [if_pos h, dictGet_mapEntry_self, he]
    rfl
  · rw [if_neg h]
    unfold dictGet
    rw [List.find?_append, List.find?_eq_none.2, Option.none_or]
    · simp [List.find?]
    · intro p hp hpk
      exact h (List.any_eq_true.2 ⟨p, hp, hpk⟩)

theorem applyUpdate_status (e : ServiceEntry) (st : String) :
    applyUpdate e ⟨some st, none⟩ = { e with status := st } := rfl

theorem dictGet_update_self (reg : Registry) (k : String) (u : ServiceUpdate) :
    dictGet (update_service reg k u).1 k = (dictGet reg k).map (fun e => applyUpdate e u) := by
  unfold update_service
  by_cases h : reg.any (fun p => p.1 = k)
  · rw [if_pos h]
    exact dictGet_mapEntry_self reg k (fun e => applyUpdate e u)
  · rw [if_neg h]
    simp [dictGet_eq_none_of_not_any reg k h]

theorem dictGet_update_ne (reg : Registry) (k k' : String) (u : ServiceUpdate)
    (h : k' ≠ k) : dictGet (update_service reg k u).1 k' = dictGet reg k' := by
  unfold update_service
  by_cases hh : reg.any (fun p => p.1 = k)
  · rw [if_pos hh]
    exact dictGet_mapEntry_ne reg k k' (fun e => applyUpdate e u) h
  · rw [if_neg hh]

theorem keys_update (reg : Registry) (k : String) (u : ServiceUpdate) :
    ((update_service reg k u).1).map Prod.fst = reg.map Prod.fst := by
  unfold update_service
  by_cases hh : reg.any (fun p => p.1 = k)
  · rw [if_pos hh]
    exact keys_mapEntry reg k (fun e => applyUpdate e u)
  · rw [if_neg hh]

theorem dictGet_dictDel_self (reg : Registry) (k : String) :
    dictGet (dictDel reg k) k = none := by
  unfold dictGet dictDel
  rw [List.find?_eq_none.2]
  · rfl
  · intro p hp
    have h2 := (List.mem_filter.1 hp).2
    simp only [decide_eq_true_eq] at h2 ⊢
    exact h2

theorem dictGet_dictDel_ne (reg : Registry) (k k' : String) (h : k' ≠ k) :
    dictGet (dictDel reg k) k' = dictGet reg k' := by
  unfold dictGet dictDel
  induction reg with
  | nil => rfl
  | cons hd tl ih =>
    by_cases hk : hd.1 = k
    · rw [List.filter_cons_of_neg (by simpa using hk),
        List.find?_cons_of_neg _
          (by simp only [decide_eq_true_eq, hk]; exact fun hh => h hh.symm)]
      exact ih
    · rw [List.filter_cons_of_pos (by simpa using hk)]
      by_cases hk' : hd.1 = k'
      · rw [List.find?_cons_of_pos _ (by simpa using hk'),
          List.find?_cons_of_pos _ (by simpa using hk')]
      · rw [List.find?_cons_of_neg _ (by simpa using hk'),
          List.find?_cons_of_neg _ (by simpa using hk')]
        exact ih

theorem dictGet_of_mem_nodup (reg : Registry) (hnd : (reg.map Prod.fst).Nodup)
    (p : String × ServiceEntry) (hp : p ∈ reg) : dictGet reg p.1 = some p.2 := by
  induction reg with
  | nil => cases hp
  | cons hd tl ih =>
    rcases List.mem_cons.1 hp with heq | hmem
    · subst heq
      unfold dictGet
      rw [List.find?_cons_of_pos _ (by simp)]
      rfl
    · have hne : hd.1 ≠ p.1 := by
        intro hh
        exact (List.nodup_cons.1 (by simpa using hnd)).1
          (hh ▸ List.mem_map_of_mem Prod.fst hmem)
      unfold dictGet
      rw [List.find?_cons_of_neg _ (by simpa using fun hh => hne hh)]
      exact ih (List.nodup_cons.1 (by simpa using hnd)).2 hmem

theorem mem_of_dictGet (reg : Registry) (k : String) (e : ServiceEntry)
    (h : dictGet reg k = some e) : (k, e) ∈ reg := by
  unfold dictGet at h
  rcases Option.map_eq_some'.1 h with ⟨q, hq, he⟩
  have hm := List.mem_of_find?_eq_some hq
  have hp := List.find?_some hq
  simp only [decide_eq_true_eq] at hp
  cases q
  simp only at hp he
  subst hp
  subst he
  exact hm

/-! ### The two passes of `cleanup_dead_services` -/

theorem cleanupStep_ne (rt : Runtime) (acc : Registry × List String)
    (hd : String × ServiceEntry) (sid : String) (h : hd.1 ≠ sid) :
    dictGet (cleanupStep rt acc hd).1 sid = dictGet acc.1 sid ∧
      (sid ∈ (cleanupStep rt acc hd).2 ↔ sid ∈ acc.2) := by
  cases htr : truthyStr hd.2.container_id with
  | none => simp [cleanupStep, htr]
  | some cid =>
    cases hg : rt.get cid with
    | some c =>
      refine ⟨?_, ?_⟩
      · simp only [cleanupStep, htr, hg]
        exact dictGet_update_ne _ _ _ _ (Ne.symm h)
      · simp [cleanupStep, htr, hg]
    | none =>
      refine ⟨by simp [cleanupStep, htr, hg], ?_⟩
      simp only [cleanupStep, htr, hg, List.mem_append, List.mem_singleton]
      exact or_iff_left (Ne.symm h)

theorem cleanup_foldl_frame (rt : Runtime) (sid : String) :
    ∀ (l : List (String × ServiceEntry)) (acc : Registry × List String),
      (∀ p ∈ l, p.1 ≠ sid) →
      dictGet (l.foldl (cleanupStep rt) acc).1 sid = dictGet acc.1 sid ∧
        (sid ∈ (l.foldl (cleanupStep rt) acc).2 ↔ sid ∈ acc.2) := by
  intro l
  induction l with
  | nil => exact fun acc _ => ⟨rfl, Iff.rfl⟩
  | cons hd tl ih =>
    intro acc hl
    have hhd : hd.1 ≠ sid := hl hd (List.mem_cons_self _ _)
    have htl : ∀ p ∈ tl, p.1 ≠ sid := fun p hp => hl p (List.mem_cons_of_mem _ hp)
    rw [List.foldl_cons]
    rcases ih (cleanupStep rt acc hd) htl with ⟨h1, h2⟩
    rcases cleanupStep_ne rt acc hd sid hhd with ⟨g1, g2⟩
    exact ⟨h1.trans g1, h2.trans g2⟩

theorem nodup_keys_tail {hd : String × ServiceEntry} {tl : List (String × ServiceEntry)}
    (hnd : ((hd :: tl).map Prod.fst).Nodup) :
    hd.1 ∉ tl.map Prod.fst ∧ (tl.map Prod.fst).Nodup := by
  rw [List.map_cons, List.nodup_cons] at hnd
  exact hnd

theorem cleanup_foldl_no_cid (rt : Runtime) (sid : String) (e : ServiceEntry)
    (hcid : truthyStr e.container_id = none) :
    ∀ (l : List (String × ServiceEntry)) (acc : Registry × List String),
      (sid, e) ∈ l → (l.map Prod.fst).Nodup →
      dictGet acc.1 sid = some e → sid ∉ acc.2 →
      dictGet (l.foldl (cleanupStep rt) acc).1 sid = some e ∧
        sid ∉ (l.foldl (cleanupStep rt) acc).2 := by
  intro l
  induction l with
  | nil => intro acc hmem; cases hmem
  | cons hd tl ih =>
    intro acc hmem hnd hacc hdead
    rcases nodup_keys_tail hnd with ⟨hhd, htnd⟩
    rw [List.foldl_cons]
    rcases List.mem_cons.1 hmem with heq | hmem'
    · have hsid : hd.1 = sid := by rw [← heq]
      have htl : ∀ p ∈ tl, p.1 ≠ sid := by
        intro p hp hps
        apply hhd
        rw [hsid, ← hps]
        exact List.mem_map_of_mem Prod.fst hp
      have hstep : cleanupStep rt acc hd = acc := by
        rw [← heq]
        simp [cleanupStep, hcid]
      rw [hstep]
      rcases cleanup_foldl_frame rt sid tl acc htl with ⟨h1, h2⟩
      exact ⟨h1.trans hacc, fun hm => hdead (h2.1 hm)⟩
    · have hne : hd.1 ≠ sid := by
        intro hh
        apply hhd
        rw [hh]
        exact List.mem_map_of_mem Prod.fst hmem'
      rcases cleanupStep_ne rt acc hd sid hne with ⟨g1, g2⟩
      exact ih (cleanupStep rt acc hd) hmem' htnd (g1.trans hacc)
        (fun hm => hdead (g2.1 hm))

theorem cleanup_foldl_found (rt : Runtime) (sid : String) (e : ServiceEntry)
    (cid : String) (c : Container) (hcid : truthyStr e.container_id = some cid)
    (hget : rt.get cid = some c) :
    ∀ (l : List (String × ServiceEntry)) (acc : Registry × List String),
      (sid, e) ∈ l → (l.map Prod.fst).Nodup →
      dictGet acc.1 sid = some e → sid ∉ acc.2 →
      dictGet (l.foldl (cleanupStep rt) acc).1 sid = some { e with status := c.status } ∧
        sid ∉ (l.foldl (cleanupStep rt) acc).2 := by
  intro l
  induction l with
  | nil => intro acc hmem; cases hmem
  | cons hd tl ih =>
    intro acc hmem hnd hacc hdead
    rcases nodup_keys_tail hnd with ⟨hhd, htnd⟩
    rw [List.foldl_cons]
    rcases List.mem_cons.1 hmem with heq | hmem'
    · have hsid : hd.1 = sid := by rw [← heq]
      have htl : ∀ p ∈ tl, p.1 ≠ sid := by
        intro p hp hps
        apply hhd
        rw [hsid, ← hps]
        exact List.mem_map_of_mem Prod.fst hp
      have hstep : cleanupStep rt acc hd =
          ((update_service acc.1 sid ⟨some c.status, none⟩).1, acc.2) := by
        rw [← heq]
        simp [cleanupStep, hcid, hget]
      rw [hstep]
      rcases cleanup_foldl_frame rt sid tl
        ((update_service acc.1 sid ⟨some c.status, none⟩).1, acc.2) htl with ⟨h1, h2⟩
      refine ⟨h1.trans ?_, fun hm => hdead (h2.1 hm)⟩
      rw [dictGet_update_self, hacc]
      simp [applyUpdate_status]
    · have hne : hd.1 ≠ sid := by
        intro hh
        apply hhd
        rw [hh]
        exact List.mem_map_of_mem Prod.fst hmem'
      rcases cleanupStep_ne rt acc hd sid hne with ⟨g1, g2⟩
      exact ih (cleanupStep rt acc hd) hmem' htnd (g1.trans hacc)
        (fun hm => hdead (g2.1 hm))

theorem cleanup_foldl_gone (rt : Runtime) (sid : String) (e : ServiceEntry)
    (cid : String) (hcid : truthyStr e.container_id = some cid)
    (hget : rt.get cid = none) :
    ∀ (l : List (String × ServiceEntry)) (acc : Registry × List String),
      (sid, e) ∈ l → (l.map Prod.fst).Nodup →
      dictGet acc.1 sid = some e → sid ∉ acc.2 →
      dictGet (l.foldl (cleanupStep rt) acc).1 sid = some e ∧
        sid ∈ (l.foldl (cleanupStep rt) acc).2 := by
  intro l
  induction l with
  | nil => intro acc hmem; cases hmem
  | cons hd tl ih =>
    intro acc hmem hnd hacc hdead
    rcases nodup_keys_tail hnd with ⟨hhd, htnd⟩
    rw [List.foldl_cons]
    rcases List.mem_cons.1 hmem with heq | hmem'
    · have hsid : hd.1 = sid := by rw [← heq]
      have htl : ∀ p ∈ tl, p.1 ≠ sid := by
        intro p hp hps
        apply hhd
        rw [hsid, ← hps]
        exact List.mem_map_of_mem Prod.fst hp
      have hstep : cleanupStep rt acc hd = (acc.1, acc.2 ++ [sid]) := by
        rw [← heq]
        simp [cleanupStep, hcid, hget]
      rw [hstep]
      rcases cleanup_foldl_frame rt sid tl (acc.1, acc.2 ++ [sid]) htl
        with ⟨h1, h2⟩
      exact ⟨h1.trans hacc, h2.2 (by simp)⟩
    · have hne : hd.1 ≠ sid := by
        intro hh
        apply hhd
        rw [hh]
        exact List.mem_map_of_mem Prod.fst hmem'
      rcases cleanupStep_ne rt acc hd sid hne with ⟨g1, g2⟩
      exact ih (cleanupStep rt acc hd) hmem' htnd (g1.trans hacc)
        (fun hm => hdead (g2.1 hm))

theorem unregisterFold_not_mem (sid : String) :
    ∀ (dead : List String) (r : Registry), sid ∉ dead →
      dictGet (dead.foldl (fun r s => unregister_service r s) r) sid = dictGet r sid := by
  intro dead
  induction dead with
  | nil => exact fun r _ => rfl
  | cons d ds ih =>
    intro r hm
    rw [List.foldl_cons]
    rw [ih (unregister_service r d) (fun hh => hm (List.mem_cons_of_mem _ hh))]
    exact dictGet_dictDel_ne r d sid (fun hh => hm (hh ▸ List.mem_cons_self _ _))

theorem unregisterFold_none (sid : String) :
    ∀ (dead : List String) (r : Registry), dictGet r sid = none →
      dictGet (dead.foldl (fun r s => unregister_service r s) r) sid = none := by
  intro dead
  induction dead with
  | nil => exact fun r h => h
  | cons d ds ih =>
    intro r h
    rw [List.foldl_cons]
    refine ih (unregister_service r d) ?_
    by_cases hd : sid = d
    · exact hd ▸ dictGet_dictDel_self r sid
    · exact (dictGet_dictDel_ne r d sid hd).trans h

theorem unregisterFold_mem (sid : String) :
    ∀ (dead : List String) (r : Registry), sid ∈ dead →
      dictGet (dead.foldl (fun r s => unregister_service r s) r) sid = none := by
  intro dead
  induction dead with
  | nil => intro r h; cases h
  | cons d ds ih =>
    intro r hm
    rw [List.foldl_cons]
    by_cases hd : sid = d
    · exact unregisterFold_none sid ds (unregister_service r d)
        (hd ▸ dictGet_dictDel_self r sid)
    · exact ih (unregister_service r d) (by
        rcases List.mem_cons.1 hm with h | h
        · exact absurd h hd
        · exact h)

theorem cleanup_dead_services_eq (rt : Runtime) (reg : Registry) :
    cleanup_dead_services rt reg =
      ((reg.foldl (cleanupStep rt) (reg, [])).2.foldl
        (fun r s => unregister_service r s)
        (reg.foldl (cleanupStep rt) (reg, [])).1, none) := rfl

/-- What a single reap pass does to an entry with a falsy
`container_id`: it is left alone. -/
theorem cleanup_lookup_no_cid (rt : Runtime) (reg : Registry) (sid : String)
    (e : ServiceEntry) (hnd : (reg.map Prod.fst).Nodup)
    (he : dictGet reg sid = some e) (hcid : truthyStr e.container_id = none) :
    dictGet (cleanup_dead_services rt reg).1 sid = some e := by
  have hmem : (sid, e) ∈ reg := mem_of_dictGet reg sid e he
  rw [cleanup_dead_services_eq]
  rcases cleanup_foldl_no_cid rt sid e hcid reg (reg, []) hmem hnd he
    (by simp) with ⟨h1, h2⟩
  exact (unregisterFold_not_mem sid _ _ h2).trans h1

/-- What a single reap pass does to an entry whose container is found:
the status field is refreshed to the observed container status. -/
theorem cleanup_lookup_found (rt : Runtime) (reg : Registry) (sid : String)
    (e : ServiceEntry) (cid : String) (c : Container)
    (hnd : (reg.map Prod.fst).Nodup) (he : dictGet reg sid = some e)
    (hcid : truthyStr e.container_id = some cid) (hget : rt.get cid = some c) :
    dictGet (cleanup_dead_services rt reg).1 sid =
      some { e with status := c.status } := by
  have hmem : (sid, e) ∈ reg := mem_of_dictGet reg sid e he
  rw [cleanup_dead_services_eq]
  rcases cleanup_foldl_found rt sid e cid c hcid hget reg (reg, []) hmem hnd he
    (by simp) with ⟨h1, h2⟩
  exact (unregisterFold_not_mem sid _ _ h2).trans h1

/-- What a single reap pass does to an entry whose container is gone:
the entry is unregistered. -/
theorem cleanup_lookup_gone (rt : Runtime) (reg : Registry) (sid : String)
    (e : ServiceEntry) (cid : String)
    (hnd : (reg.map Prod.fst).Nodup) (he : dictGet reg sid = some e)
    (hcid : truthyStr e.container_id = some cid) (hget : rt.get cid = none) :
    dictGet (cleanup_dead_services rt reg).1 sid = none := by
  have hmem : (sid, e) ∈ reg := mem_of_dictGet reg sid e he
  rw [cleanup_dead_services_eq]
  rcases cleanup_foldl_gone rt sid e cid hcid hget reg (reg, []) hmem hnd he
    (by simp) with ⟨h1, h2⟩
  exact unregisterFold_mem sid _ _ h2

theorem keys_cleanup_foldl (rt : Runtime) :
    ∀ (l : List (String × ServiceEntry)) (acc : Registry × List String),
      ((l.foldl (cleanupStep rt) acc).1).map Prod.fst = acc.1.map Prod.fst := by
  intro l
  induction l with
  | nil => exact fun acc => rfl
  | cons hd tl ih =>
    intro acc
    rw [List.foldl_cons, ih]
    cases htr : truthyStr hd.2.container_id with
    | none => simp [cleanupStep, htr]
    | some cid =>
      cases hg : rt.get cid with
      | some c =>
        simp only [cleanupStep, htr, hg]
        exact keys_update acc.1 hd.1 _
      | none => simp [cleanupStep, htr, hg]

theorem keys_unregisterFold_sublist :
    ∀ (dead : List String) (r : Registry),
      ((dead.foldl (fun r s => unregister_service r s) r).map Prod.fst).Sublist
        (r.map Prod.fst) := by
  intro dead
  induction dead with
  | nil => exact fun r => List.Sublist.refl _
  | cons d ds ih =>
    intro r
    rw [List.foldl_cons]
    exact (ih (unregister_service r d)).trans ((List.filter_sublist r).map Prod.fst)

theorem nodup_keys_cleanup (rt : Runtime) (reg : Registry)
    (hnd : (reg.map Prod.fst).Nodup) :
    (((cleanup_dead_services rt reg).1).map Prod.fst).Nodup := by
  rw [cleanup_dead_services_eq]
  have hs := keys_unregisterFold_sublist
    (reg.foldl (cleanupStep rt) (reg, [])).2
    (reg.foldl (cleanupStep rt) (reg, [])).1
  refine List.Nodup.sublist hs ?_
  rw [keys_cleanup_foldl]
  exact hnd

/-! ### Claim C1: duplicate registration overwrites wholesale -/

/-- C1: when `service_id` is already present, `register_service` succeeds
(the embedded function is total: the source raises nothing and produces
no `DuplicateService` failure) and replaces the stored entry wholesale
with an entry built only from the newly supplied arguments, so no field
of the old entry survives. -/
theorem register_service_duplicate_overwrites (reg : Registry) (sid : String)
    (h : (dictGet reg sid).isSome = true) (t n : String) (port : Option Nat)
    (iid : Option Int) (pd : Option String) (cid : Option String)
    (cAt : Option String) (now : String) :
    dictGet (register_service reg sid t n port iid pd cid cAt now) sid =
      some { template := t, container_name := n, container_id := cid, port := port
             instance_id := iid, project_dir := pd
             created_at := strOrElse cAt now, status := "running" } :=
  dictGet_dictSet_self reg sid _

/-- Witness for C1 at a concrete one-entry registry. -/
theorem register_service_duplicate_overwrites_witness :
    (dictGet regOne "svc").isSome = true ∧
    dictGet (register_service regOne "svc" "tmplB" "contB" (some 9000) (some 2)
        none (some "cid2") (some "T") "t9") "svc" =
      some { template := "tmplB", container_name := "contB"
             container_id := some "cid2", port := some 9000
             instance_id := some 2, project_dir := none
             created_at := strOrElse (some "T") "t9", status := "running" } :=
  ⟨by decide,
   register_service_duplicate_overwrites regOne "svc" (by decide) "tmplB" "contB"
     (some 9000) (some 2) none (some "cid2") (some "T") "t9"⟩

/-! ### Claim C10: fields written by registration -/

/-- C10: every entry created by `register_service` gets `status`
`"running"` unconditionally (the function accepts no status argument and
consults no container state), `created_at` defaults to the current time
when not supplied, and every other stored field equals the corresponding
argument. -/
theorem register_service_fields (reg : Registry) (sid t n : String)
    (port : Option Nat) (iid : Option Int) (pd : Option String)
    (cid : Option String) (cAt : Option String) (now : String) :
    ∃ e, dictGet (register_service reg sid t n port iid pd cid cAt now) sid = some e ∧
      e.status = "running" ∧ (cAt = none → e.created_at = now) ∧
      e.template = t ∧ e.container_name = n ∧ e.container_id = cid ∧
      e.port = port ∧ e.instance_id = iid ∧ e.project_dir = pd := by
  refine ⟨_, dictGet_dictSet_self reg sid _, rfl, ?_, rfl, rfl, rfl, rfl, rfl, rfl⟩
  intro hc
  subst hc
  rfl

/-- Witness for C10 at a concrete input with `created_at` not supplied. -/
theorem register_service_fields_witness :
    ∃ e, dictGet (register_service [] "s" "t" "n" (some 8080) (some 3) none
        (some "cc") none "NOW") "s" = some e ∧
      e.status = "running" ∧ ((none : Option String) = none → e.created_at = "NOW") ∧
      e.template = "t" ∧ e.container_name = "n" ∧ e.container_id = some "cc" ∧
      e.port = some 8080 ∧ e.instance_id = some 3 ∧ e.project_dir = none :=
  register_service_fields [] "s" "t" "n" (some 8080) (some 3) none (some "cc") none "NOW"

/-! ### Claim C2: next instance id -/

/-- C2 counterexample: with instances 1 and 2 of `buckets` registered and
the entry holding the maximum (`instance_id = 2`) removed,
`get_next_instance_id` returns `2`, reusing the removed id instead of the
`3` the never-reuse claim demands. -/
theorem next_instance_id_reuse_counterexample :
    (dictGet regTwoBuckets "buckets_instance_2").map ServiceEntry.instance_id =
      some (some 2) ∧
    get_next_instance_id (unregister_service regTwoBuckets "buckets_instance_2")
      "buckets" = 2 ∧ (2 : Int) ≠ 3 := by
  refine ⟨by decide, by decide, by decide⟩

theorem foldl_instStep_spec (l : Registry) :
    ∀ m0 : Int,
      m0 ≤ l.foldl instStep m0 ∧
      (∀ p ∈ l, ∀ i : Int, p.2.instance_id = some i → i ≤ l.foldl instStep m0) ∧
      (l.foldl instStep m0 = m0 ∨ ∃ p ∈ l, p.2.instance_id = some (l.foldl instStep m0)) := by
  induction l with
  | nil => exact fun m0 => ⟨le_refl m0, by simp, Or.inl rfl⟩
  | cons p tl ih =>
    intro m0
    rw [List.foldl_cons]
    rcases ih (instStep m0 p) with ⟨ih1, ih2, ih3⟩
    have hstep : m0 ≤ instStep m0 p := by
      unfold instStep
      cases p.2.instance_id with
      | none => exact le_refl m0
      | some i => exact le_max_left m0 i
    refine ⟨hstep.trans ih1, ?_, ?_⟩
    · intro q hq i hqi
      rcases List.mem_cons.1 hq with heq | hmem
      · subst heq
        have : i ≤ instStep m0 q := by
          unfold instStep
          rw [hqi]
          exact le_max_right m0 i
        exact this.trans ih1
      · exact ih2 q hmem i hqi
    · rcases ih3 with hfold | ⟨q, hq, hqi⟩
      · cases hii : p.2.instance_id with
        | none =>
          have : instStep m0 p = m0 := by unfold instStep; rw [hii]
          exact Or.inl (hfold.trans this)
        | some i =>
          have hmax : instStep m0 p = max m0 i := by unfold instStep; rw [hii]
          rcases max_choice m0 i with hch | hch
          · exact Or.inl (hfold.trans (hmax.trans hch))
          · refine Or.inr ⟨p, List.mem_cons_self _ _, ?_⟩
            rw [hii, hfold, hmax, hch]
      · exact Or.inr ⟨q, List.mem_cons_of_mem _ hq, hqi⟩

/-- C2 (amended): `get_next_instance_id` is `1` when the template has no
current entries; otherwise it is one more than the maximum integer
`instance_id` among current entries of the template (so the spec scenario
register-1-and-2-remove-1 yields 3), which means an instance id can be
reused once the entry holding the maximum is removed. -/
theorem get_next_instance_id_spec (reg : Registry) (t : String) :
    (1 : Int) ≤ get_next_instance_id reg t ∧
    (∀ p ∈ list_services reg (some t), ∀ i : Int, p.2.instance_id = some i →
      i < get_next_instance_id reg t) ∧
    (get_next_instance_id reg t = 1 ∨
      ∃ p ∈ list_services reg (some t),
        p.2.instance_id = some (get_next_instance_id reg t - 1)) := by
  unfold get_next_instance_id
  by_cases h : (list_services reg (some t)).isEmpty
  · rw [if_pos h]
    have hnil : list_services reg (some t) = [] := List.isEmpty_iff.1 h
    refine ⟨le_refl 1, ?_, Or.inl rfl⟩
    intro p hp
    rw [hnil] at hp
    cases hp
  · rw [if_neg h]
    rcases foldl_instStep_spec (list_services reg (some t)) 0 with ⟨h1, h2, h3⟩
    have hmax : maxInstance (list_services reg (some t)) =
        (list_services reg (some t)).foldl instStep 0 := rfl
    refine ⟨by rw [hmax]; omega, ?_, ?_⟩
    · intro p hp i hpi
      have := h2 p hp i hpi
      rw [hmax]
      omega
    · rcases h3 with h0 | ⟨q, hq, hqi⟩
      · refine Or.inl ?_
        rw [hmax, h0]
        omega
      · refine Or.inr ⟨q, hq, ?_⟩
        rw [hqi, hmax]
        congr 1
        omega

/-- Witness for C2 at the registry with instance 1 removed and 2 kept. -/
theorem get_next_instance_id_spec_witness :
    (1 : Int) ≤ get_next_instance_id
        (unregister_service regTwoBuckets "buckets_instance_1") "buckets" ∧
    (∀ p ∈ list_services (unregister_service regTwoBuckets "buckets_instance_1")
        (some "buckets"), ∀ i : Int, p.2.instance_id = some i →
      i < get_next_instance_id
        (unregister_service regTwoBuckets "buckets_instance_1") "buckets") ∧
    (get_next_instance_id (unregister_service regTwoBuckets "buckets_instance_1")
        "buckets" = 1 ∨
      ∃ p ∈ list_services (unregister_service regTwoBuckets "buckets_instance_1")
          (some "buckets"),
        p.2.instance_id = some (get_next_instance_id
          (unregister_service regTwoBuckets "buckets_instance_1") "buckets" - 1)) :=
  get_next_instance_id_spec (unregister_service regTwoBuckets "buckets_instance_1")
    "buckets"

/-! ### Claim C3: the reap operation -/

/-- C3 counterexample: reaping a registry whose single service `svc-a`
has a vanished container does remove the entry, but the function returns
`None`, not the list `["svc-a"]` of removed ids the claim describes. -/
theorem cleanup_returns_none_counterexample :
    dictGet (cleanup_dead_services rtEmpty [("svc-a", entA)]).1 "svc-a" = none ∧
    (cleanup_dead_services rtEmpty [("svc-a", entA)]).2 = none ∧
    (cleanup_dead_services rtEmpty [("svc-a", entA)]).2 ≠ some ["svc-a"] := by
  refine ⟨by decide, rfl, by decide⟩

/-- C3 (amended): for every entry with a truthy `container_id`, the reap
pass unregisters it when the runtime does not know the container and
refreshes its `status` to the observed container status when it does;
but the function returns `None` — the removed ids are only logged, not
returned. -/
theorem cleanup_dead_services_spec (rt : Runtime) (reg : Registry) (sid : String)
    (e : ServiceEntry) (cid : String) (hnd : (reg.map Prod.fst).Nodup)
    (he : dictGet reg sid = some e) (hcid : truthyStr e.container_id = some cid) :
    (rt.get cid = none → dictGet (cleanup_dead_services rt reg).1 sid = none) ∧
    (∀ c, rt.get cid = some c →
      dictGet (cleanup_dead_services rt reg).1 sid = some { e with status := c.status }) ∧
    (cleanup_dead_services rt reg).2 = none :=
  ⟨fun hg => cleanup_lookup_gone rt reg sid e cid hnd he hcid hg,
   fun c hg => cleanup_lookup_found rt reg sid e cid c hnd he hcid hg,
   rfl⟩

/-- Witness for C3: reaping a one-entry registry whose container exists in
state `exited` refreshes the status and returns `None`. -/
theorem cleanup_dead_services_spec_witness :
    dictGet (cleanup_dead_services rtOnlyB [("svc-b", entB)]).1 "svc-b" =
      some { entB with status := "exited" } ∧
    (cleanup_dead_services rtOnlyB [("svc-b", entB)]).2 = none :=
  ⟨(cleanup_dead_services_spec rtOnlyB [("svc-b", entB)] "svc-b" entB "c-b"
      (by decide) (by decide) (by decide)).2.1
      ⟨"c-b", "buckets_instance_2", "exited", [], []⟩ (by decide),
   (cleanup_dead_services_spec rtOnlyB [("svc-b", entB)] "svc-b" entB "c-b"
      (by decide) (by decide) (by decide)).2.2⟩

/-! ### Claim C9: reaping never touches entries without a container id -/

/-- C9: an entry whose `container_id` is absent (falsy) is never queried,
refreshed or removed by `cleanup_dead_services`: after any number of reap
invocations the entry is looked up unchanged, with every field intact. -/
theorem reap_frame (rt : Runtime) (reg : Registry) (sid : String) (e : ServiceEntry)
    (n : Nat) (hnd : (reg.map Prod.fst).Nodup) (he : dictGet reg sid = some e)
    (hcid : truthyStr e.container_id = none) :
    dictGet (reapIter rt n reg) sid = some e := by
  induction n generalizing reg with
  | zero => exact he
  | succ n ih =>
    exact ih ((cleanup_dead_services rt reg).1) (nodup_keys_cleanup rt reg hnd)
      (cleanup_lookup_no_cid rt reg sid e hnd he hcid)

/-- Witness for C9: two reap passes leave the container-less `svc-c`
untouched even while the dead `svc-a` is being removed. -/
theorem reap_frame_witness :
    dictGet (reapIter rtEmpty 2 [("svc-c", entC), ("svc-a", entA)]) "svc-c" =
      some entC :=
  reap_frame rtEmpty [("svc-c", entC), ("svc-a", entA)] "svc-c" entC 2
    (by decide) (by decide) (by decide)

/-! ### Claim C4: the free-port scan -/

theorem scanPort_spec_aux (used : List Nat) (avail : Nat → Bool) (eph : Nat) :
    ∀ (fuel port : Nat), 65536 - port ≤ fuel → port ≤ 65535 →
      ((∃ p, port ≤ p ∧ p ≤ 65535 ∧ goodPort used avail p) →
        goodPort used avail (scanPort used avail eph port) ∧
        port ≤ scanPort used avail eph port ∧
        scanPort used avail eph port ≤ 65535 ∧
        ∀ q, port ≤ q → q < scanPort used avail eph port → ¬ goodPort used avail q) ∧
      ((∀ p, port ≤ p → p ≤ 65535 → ¬ goodPort used avail p) →
        scanPort used avail eph port = eph) := by
  intro fuel
  induction fuel with
  | zero => intro port hgas hle; omega
  | succ fuel ih =>
    intro port hgas hle
    rw [scanPort]
    by_cases hcond : port ∈ used ∨ avail port = false
    · rw [if_pos hcond]
      have hbad : ¬ goodPort used avail port := by
        rintro ⟨hnm, hav⟩
        rcases hcond with hc | hc
        · exact hnm hc
        · rw [hav] at hc
          cases hc
      by_cases hnext : port + 1 > 65535
      · rw [if_pos hnext]
        constructor
        · rintro ⟨p, hp1, hp2, hpg⟩
          have hpe : p = port := by omega
          exact absurd hpg (by rw [hpe]; exact hbad)
        · intro _
          rfl
      · rw [if_neg hnext]
        rcases ih (port + 1) (by omega) (by omega) with ⟨ihf, ihn⟩
        constructor
        · rintro ⟨p, hp1, hp2, hpg⟩
          have hpp : port + 1 ≤ p := by
            by_cases hpe : p = port
            · exact absurd hpg (by rw [hpe]; exact hbad)
            · omega
          rcases ihf ⟨p, hpp, hp2, hpg⟩ with ⟨g1, g2, g3, g4⟩
          refine ⟨g1, by omega, g3, ?_⟩
          intro q hq1 hq2
          by_cases hqe : q = port
          · rw [hqe]
            exact hbad
          · exact g4 q (by omega) hq2
        · intro hall
          exact ihn (fun p hp1 hp2 => hall p (by omega) hp2)
    · rw [if_neg hcond]
      have hgood : goodPort used avail port := by
        constructor
        · exact fun hm => hcond (Or.inl hm)
        · cases hav : avail port with
          | false => exact absurd (Or.inr hav) hcond
          | true => rfl
      constructor
      · intro _
        refine ⟨hgood, le_refl port, hle, ?_⟩
        intro q hq1 hq2 _
        omega
      · intro hall
        exact absurd hgood (hall port (le_refl port) hle)

/-- C4: for a starting port in the valid range, `get_free_port` returns
the smallest port at least `start_port` that is outside the used-port set
(registry used ports after reaping, unioned with live container
bindings) and passes the bind probe; when no port up to 65535 qualifies,
it returns the OS-assigned ephemeral port instead. -/
theorem get_free_port_spec (rt : Runtime) (reg : Registry) (avail : Nat → Bool)
    (eph : Nat) (start_port : Nat) (h : start_port ≤ 65535) :
    ((∃ p, start_port ≤ p ∧ p ≤ 65535 ∧ goodPort (usedPortsAll rt reg) avail p) →
      goodPort (usedPortsAll rt reg) avail (get_free_port rt reg avail eph start_port) ∧
      start_port ≤ get_free_port rt reg avail eph start_port ∧
      get_free_port rt reg avail eph start_port ≤ 65535 ∧
      ∀ q, start_port ≤ q → q < get_free_port rt reg avail eph start_port →
        ¬ goodPort (usedPortsAll rt reg) avail q) ∧
    ((∀ p, start_port ≤ p → p ≤ 65535 → ¬ goodPort (usedPortsAll rt reg) avail p) →
      get_free_port rt reg avail eph start_port = eph) := by
  unfold get_free_port
  exact scanPort_spec_aux (usedPortsAll rt reg) avail eph (65536 - start_port)
    start_port (le_refl _) h

/-- Witness for C4: an empty registry and runtime with a probe accepting
odd ports; the scan started at 8000 yields a good port at least 8000. -/
theorem get_free_port_spec_witness :
    goodPort (usedPortsAll rtEmpty []) (fun p => decide (p % 2 = 1))
      (get_free_port rtEmpty [] (fun p => decide (p % 2 = 1)) 50000 8000) ∧
    8000 ≤ get_free_port rtEmpty [] (fun p => decide (p % 2 = 1)) 50000 8000 := by
  have h := (get_free_port_spec rtEmpty [] (fun p => decide (p % 2 = 1)) 50000 8000
    (by decide)).1 ⟨8001, by decide, by decide, by decide⟩
  exact ⟨h.1, h.2.1⟩

/-! ### Claim C5: recovery of exited containers -/

/-- C5 counterexample: recovering a service whose exited container fails
to start surfaces the error in the per-entry result map, but the registry
entry status field stays at the observed `exited` — it is not set to
`failed` as the claim states. -/
theorem recovery_start_error_counterexample :
    (startup_container_recovery rtExitedFail [("svc-d", entD)]).2.2.1 =
      [("svc-d", RecoveryResult.failed "error_boom")] ∧
    (dictGet (startup_container_recovery rtExitedFail [("svc-d", entD)]).2.1
        "svc-d").map ServiceEntry.status = some "exited" ∧
    ("exited" : String) ≠ "failed" := by
  refine ⟨by decide, by decide, by decide⟩

/-- C5 (amended): for a registry entry whose container is found (by id)
in an exited or stopped state, the recovery step issues a start; on
success the entry status becomes the observed post-start status (normally
`running`), while a start error is surfaced in the per-entry result as
`error_<msg>` with the registry entry left untouched — its status is not
set to `failed`. -/
theorem recoverOne_stopped_spec (rt : Runtime) (reg : Registry) (sid : String)
    (svc : ServiceEntry) (cid : String) (c : Container)
    (hcid : truthyStr svc.container_id = some cid)
    (hget : rt.get cid = some c)
    (hst : c.status = "exited" ∨ c.status = "stopped") :
    (∀ st rt', rt.startContainer c.id = Except.ok (rt', st) →
      (recoverOne rt reg sid svc).2.2 = RecoveryResult.restarted st ∧
      (recoverOne rt reg sid svc).2.1 = (update_service reg sid ⟨some st, none⟩).1) ∧
    (∀ e, rt.startContainer c.id = Except.error e →
      (recoverOne rt reg sid svc).2.2 = RecoveryResult.failed ("error_" ++ e) ∧
      (recoverOne rt reg sid svc).2.1 = reg) := by
  have hnr : ¬ c.status = "running" := by
    rcases hst with h | h <;> rw [h] <;> decide
  constructor
  · intro st rt' hok
    simp [recoverOne, hcid, hget, hnr, hst, hok]
  · intro e herr
    simp [recoverOne, hcid, hget, hnr, hst, herr]

/-- Witness for C5: the exited container `c-e` starts cleanly, the result
is `restarted running` and the entry status is refreshed to `running`. -/
theorem recoverOne_stopped_spec_witness :
    (recoverOne rtExitedOk [("svc-e", entE)] "svc-e" entE).2.2 =
      RecoveryResult.restarted "running" ∧
    (recoverOne rtExitedOk [("svc-e", entE)] "svc-e" entE).2.1 =
      (update_service [("svc-e", entE)] "svc-e" ⟨some "running", none⟩).1 :=
  (recoverOne_stopped_spec rtExitedOk [("svc-e", entE)] "svc-e" entE "c-e"
      ⟨"c-e", "web_instance_1", "exited", [], []⟩ (by decide) (by decide)
      (Or.inl rfl)).1 "running"
    { rtExitedOk with
        containers := setContainerStatus rtExitedOk.containers "c-e" "running" }
    (by rfl)

/-! ### Claim C6: shutdown is idempotent -/

/-- C6: after a completed `graceful_shutdown` invocation, a second
invocation is a no-op — it returns the state unchanged and issues no
stop or remove request. -/
theorem graceful_shutdown_idempotent (s : ShutdownCtx) :
    graceful_shutdown (graceful_shutdown s).1 = ((graceful_shutdown s).1, []) := by
  by_cases h : s.called
  · simp [graceful_shutdown, h]
  · simp [graceful_shutdown, h]

/-! ### Claim C7: diagnostics on terminal setup failure -/

/-- C7 counterexample: a terminal connection for a container unknown to
the runtime is a setup failure, yet the bridge closes the channel without
sending any message — a silent drop. -/
theorem terminal_silent_close_counterexample :
    (handle_terminal_setup apiNoContainers "/terminal/deadbeef").1 =
      [WsAction.close] ∧
    (handle_terminal_setup apiNoContainers "/terminal/deadbeef").2 = none := by
  refine ⟨by decide, by decide⟩

/-- C7 (amended): only the container-not-running check sends diagnostics
before closing: when the container resolves but is not running the bridge
sends the human-readable error and option lines and then closes.  Other
setup failures (unparseable path, container not found, exec errors) fall
to the blanket handler, which closes without sending. -/
theorem terminal_not_running_diagnostic (api : TerminalApi)
    (path container_id : String) (c : Container)
    (hpath : rsplitContainerId path = some container_id)
    (hget : api.runtime.get container_id = some c)
    (hst : c.status ≠ "running") :
    (handle_terminal_setup api path).1 =
      [WsAction.send ("ERROR: Cannot connect to terminal: Container \x27"
          ++ c.name ++ "\x27 is " ++ c.status ++ ", not running\n"),
       WsAction.send "Available options:\n",
       WsAction.send "1. Start the container first using: docker start <container_id>\n",
       WsAction.send "2. Launch a new container using the /launch endpoint\n",
       WsAction.close] := by
  simp [handle_terminal_setup, hpath, hget, hst]

/-- Witness for C7: connecting to the exited container `c-b` produces the
diagnostic lines followed by the close. -/
theorem terminal_not_running_diagnostic_witness :
    (handle_terminal_setup apiExited "/terminal/c-b").1 =
      [WsAction.send ("ERROR: Cannot connect to terminal: Container \x27"
          ++ "buckets_instance_2" ++ "\x27 is " ++ "exited" ++ ", not running\n"),
       WsAction.send "Available options:\n",
       WsAction.send "1. Start the container first using: docker start <container_id>\n",
       WsAction.send "2. Launch a new container using the /launch endpoint\n",
       WsAction.close] :=
  terminal_not_running_diagnostic apiExited "/terminal/c-b" "c-b"
    ⟨"c-b", "buckets_instance_2", "exited", [], []⟩ (by decide) (by decide)
    (by decide)

/-! ### Claim C8: relay loop cancellation -/

/-- C8 counterexample: from the state where the exec stream is exhausted
and one client message is pending, loop A terminates; the resulting state
has loop A terminated and loop B still live, and loop B then takes a
further step — one relay loop keeps running after the other terminated. -/
theorem relay_half_open_counterexample :
    RelayReachable relayInit relayHalf ∧ relayHalf.aDone = true ∧
    relayHalf.bDone = false ∧ RelayStep relayHalf relayAfter ∧
    relayAfter.toContainer = ["ls\n"] := by
  refine ⟨?_, rfl, rfl, ?_, rfl⟩
  · exact Relation.ReflTransGen.single (RelayStep.containerClosed relayInit rfl rfl)
  · exact RelayStep.clientData relayHalf "ls\n" [] rfl rfl

/-- C8 (amended): `asyncio.gather` does not cancel the sibling loop when
one relay loop finishes normally: in any state where the container-side
loop has terminated but the client side is live with pending input, the
client-to-container loop still takes a step forwarding that input, with
the container-side loop staying terminated. -/
theorem relay_no_cancellation (s : RelayState) (d : String) (rest : List String)
    (ha : s.aDone = true) (hb : s.bDone = false) (hc : s.fromClient = d :: rest) :
    ∃ s', RelayStep s s' ∧ s'.toContainer = s.toContainer ++ [d] ∧
      s'.aDone = true :=
  ⟨_, RelayStep.clientData s d rest hb hc, rfl, ha⟩

/-- Witness for C8 at the concrete half-open state. -/
theorem relay_no_cancellation_witness :
    ∃ s', RelayStep relayHalf s' ∧ s'.toContainer = relayHalf.toContainer ++ ["ls\n"] ∧
      s'.aDone = true :=
  relay_no_cancellation relayHalf "ls\n" [] rfl rfl rfl

end UWS
